import Mathlib

/-!
Verification of the serverless request router: a shallow embedding of
`handler.py`, `utils/event_utils.py`, `src/controllers/login_controller.py`
and `src/models/login_schema.py`, with theorems about route resolution,
event-field access and the login controller.

Python values that can be a string or the integer 404 are embedded as
`String ⊕ Nat`; exceptions as `Except PyErr`; JSON data as the `Json`
inductive; regular-expression patterns as Mathlib's `RegularExpression Char`
with `re.match`'s match-at-start semantics given by `reMatch`.
-/

/-- JSON-like structured data, the result of `json.loads` and the input of
`LoginSchema.load`. Objects are association lists in key order. -/
inductive Json where
  | null : Json
  | bool (b : Bool) : Json
  | num (n : Int) : Json
  | str (s : String) : Json
  | arr (elems : List Json) : Json
  | obj (kvs : List (String × Json)) : Json

/-- Python exceptions that the embedded code can raise. -/
inductive PyErr where
  | valueError (msg : String) : PyErr
  | jsonDecodeError : PyErr
  | keyError (key : String) : PyErr
  | typeError : PyErr
  | importError (moduleName : String) : PyErr
  | attributeError (attr : String) : PyErr
deriving DecidableEq

/-- The inbound API event: the fields of the Lambda event dict that the code
reads. `none` stands for an absent (or `None`) field. -/
structure Event where
  path : Option String
  httpMethod : Option String
  headers : Option (List (String × String))
  body : Option String
  queryStringParameters : Option (List (String × String))

/-- The Lambda context object; only `aws_request_id` is read. -/
structure Context where
  aws_request_id : String

/-- The normalized response produced by `handle` and by controllers. -/
structure Response where
  statusCode : Nat
  body : String
deriving DecidableEq

/-- Python truthiness of a JSON value (`if x:`). -/
def truthy : Json → Bool
  | Json.null => false
  | Json.bool b => b
  | Json.num n => n ≠ 0
  | Json.str s => s ≠ ""
  | Json.arr elems => !elems.isEmpty
  | Json.obj kvs => !kvs.isEmpty

/-- Python `==` between a JSON value and a string literal: equal exactly when
the value is that string (cross-type comparison is `False`). -/
def pyEqStr (v : Json) (s : String) : Bool :=
  match v with
  | Json.str t => t = s
  | _ => false

/-- Lookup of a key in a JSON value, defined when it is an object. -/
def jlookup : Json → String → Option Json
  | Json.obj kvs, k => kvs.lookup k
  | _, _ => none

/-- Python `str.lower`, character by character. -/
def pyLower (s : String) : String :=
  String.mk (s.data.map Char.toLower)

/-- Route patterns: regular expressions over characters, as compiled by the
`re` module from the route table's pattern strings. -/
abbrev Pattern := RegularExpression Char

/-- Semantics of Python's `re.match(pattern, s)` viewed as a Bool: true when
the pattern matches at the start of `s`, i.e. some prefix of `s` (including
the empty one) is in the pattern's language. Not full-string anchored. -/
def reMatch (p : Pattern) (s : String) : Bool :=
  (List.range (s.length + 1)).any fun n => p.rmatch (s.data.take n)

/-- The pattern denoting one literal string, character by character: what
`re` compiles a metacharacter-free pattern string to. -/
def litPattern (cs : List Char) : Pattern :=
  cs.foldr (fun c r => RegularExpression.comp (RegularExpression.char c) r)
    RegularExpression.epsilon

namespace EventUtils

/-- Embedding of `EventUtils.get_body`: the raw `body` string is parsed by
`json.loads` (the `parse` argument, an external-library function); an absent
or empty body raises `ValueError("Body was empty")`, an unparseable one the
`json.JSONDecodeError`. -/
def get_body (parse : String → Option Json) (e : Event) : Except PyErr Json :=
  match e.body with
  | some s =>
      if s = "" then Except.error (PyErr.valueError "Body was empty")
      else
        match parse s with
        | some j => Except.ok j
        | none => Except.error PyErr.jsonDecodeError
  | none => Except.error (PyErr.valueError "Body was empty")

/-- Embedding of `EventUtils.get_resource`: returns the `path` string when
present and non-empty, and otherwise returns the integer `404` as a normal
value (`Sum.inr`), raising nothing. -/
def get_resource (e : Event) : String ⊕ Nat :=
  match e.path with
  | some p => if p = "" then Sum.inr 404 else Sum.inl p
  | none => Sum.inr 404

/-- Python dict insertion: replace the value at an existing key in place, or
append a fresh binding at the end. -/
def dinsert : List (String × String) → String → String → List (String × String)
  | [], k, v => [(k, v)]
  | (k1, v1) :: rest, k, v =>
      if k1 = k then (k1, v) :: rest else (k1, v1) :: dinsert rest k v

/-- The dict comprehension lowering every header key, in iteration order. -/
def lowerHeaders (hs : List (String × String)) : List (String × String) :=
  hs.foldl (fun d kv => dinsert d (pyLower kv.1) kv.2) []

/-- Embedding of `EventUtils.get_request_origin`: lowercase all header keys,
then return the value under "origin" when the lowered dict is non-empty, and
`none` (Python's implicit `None`) otherwise. Total: it raises nothing. -/
def get_request_origin (e : Event) : Option String :=
  let request_headers := lowerHeaders (e.headers.getD [])
  if request_headers.isEmpty then none
  else request_headers.lookup "origin"

/-- Embedding of `EventUtils.get_request_type`: the `httpMethod` string when
present and non-empty, else `ValueError`. -/
def get_request_type (e : Event) : Except PyErr String :=
  match e.httpMethod with
  | some m =>
      if m = "" then Except.error (PyErr.valueError "Request type not found in the request")
      else Except.ok m
  | none => Except.error (PyErr.valueError "Request type not found in the request")

/-- Embedding of `EventUtils.get_query_params`: the query parameters when
present and non-empty, else `ValueError`. -/
def get_query_params (e : Event) : Except PyErr (List (String × String)) :=
  match e.queryStringParameters with
  | some qs =>
      if qs.isEmpty then Except.error (PyErr.valueError "Query parameters not found in the request")
      else Except.ok qs
  | none => Except.error (PyErr.valueError "Query parameters not found in the request")

end EventUtils

/-- One route table entry: a compiled pattern and its method → controller
identifier dict in declaration order. -/
abbrev RouteEntry := Pattern × List (String × String)

/-- Embedding of `get_controller` in `handler.py`. The resource is the
dynamically typed value produced by `get_resource`: `re.match` raises
`TypeError` when it is the integer sentinel. On the first entry whose
pattern matches, the Python code indexes the entry's method dict with
`value[request_type]`, so a missing method raises `KeyError`; only when no
entry's pattern matches does the loop fall through and return `None`. -/
def get_controller :
    List RouteEntry → String ⊕ Nat → String → Except PyErr (Option String)
  | [], _, _ => Except.ok none
  | (key, value) :: rest, resource, request_type =>
      match resource with
      | Sum.inr _ => Except.error PyErr.typeError
      | Sum.inl s =>
          if reMatch key s then
            match value.lookup request_type with
            | some c => Except.ok (some c)
            | none => Except.error (PyErr.keyError request_type)
          else get_controller rest (Sum.inl s) request_type

/-- Modelled from the spec: the module `src.routes` that defines `ROUTES` is
not among the repository's files; §6 gives the table's format (ordered
sequence of pattern → (method → controller identifier)) and §4.3/§8 its one
route, the metacharacter-free pattern "/user/login/" dispatching POST to the
Login controller. -/
def ROUTES : List RouteEntry :=
  [(litPattern "/user/login/".data, [("POST", "Login")])]

/-- Hexadecimal digit characters, lowercase, as `json.dumps` emits them. -/
def hexDigit (n : Nat) : Char :=
  if n < 10 then Char.ofNat (48 + n) else Char.ofNat (87 + n)

/-- Four-digit hexadecimal rendering of a code unit for a `\u` escape. -/
def hex4 (n : Nat) : String :=
  String.mk [hexDigit (n / 4096 % 16), hexDigit (n / 256 % 16),
    hexDigit (n / 16 % 16), hexDigit (n % 16)]

/-- The double-quote character. -/
def dquote : String := String.singleton (Char.ofNat 34)

/-- The single-quote character. -/
def squote : String := String.singleton (Char.ofNat 39)

/-- Escaping of one character inside a `json.dumps` string literal with the
default `ensure_ascii=True`: non-ASCII and control characters become `\u`
escapes (astral ones a surrogate pair). -/
def jsonEscChar (c : Char) : String :=
  if c = Char.ofNat 34 then "\\" ++ dquote
  else if c = Char.ofNat 92 then "\\\\"
  else if c = Char.ofNat 10 then "\\n"
  else if c = Char.ofNat 13 then "\\r"
  else if c = Char.ofNat 9 then "\\t"
  else if c = Char.ofNat 8 then "\\b"
  else if c = Char.ofNat 12 then "\\f"
  else if c.toNat < 32 || c.toNat > 126 then
    if c.toNat < 65536 then "\\u" ++ hex4 c.toNat
    else
      "\\u" ++ hex4 (55296 + (c.toNat - 65536) / 1024) ++
        "\\u" ++ hex4 (56320 + (c.toNat - 65536) % 1024)
  else String.singleton c

/-- A `json.dumps` string literal. -/
def json_dumps_str (s : String) : String :=
  dquote ++ String.join (s.data.map jsonEscChar) ++ dquote

/-- Embedding of `json.dumps({"message": msg})`: the serialized one-field
object the controllers and the 404 branch put in the response body. -/
def json_dumps_message (msg : String) : String :=
  "\x7b" ++ dquote ++ "message" ++ dquote ++ ": " ++ json_dumps_str msg ++ "\x7d"

/-- Escaping of one character inside a Python `repr` of a string quoted by
`q`. -/
def pyReprChar (q : Char) (c : Char) : String :=
  if c = Char.ofNat 92 then "\\\\"
  else if c = q then "\\" ++ String.singleton q
  else if c = Char.ofNat 10 then "\\n"
  else if c = Char.ofNat 13 then "\\r"
  else if c = Char.ofNat 9 then "\\t"
  else String.singleton c

/-- Python `repr` of a string: single-quoted, or double-quoted when the
string contains a single quote but no double quote. -/
def pyReprStr (s : String) : String :=
  let q := if s.data.any (fun c => c = Char.ofNat 39) && !s.data.any (fun c => c = Char.ofNat 34)
    then Char.ofNat 34 else Char.ofNat 39
  String.singleton q ++ String.join (s.data.map (pyReprChar q)) ++ String.singleton q

/-- Python `str(list_of_strings)`, as applied to the validation-error keys. -/
def pyStrList (xs : List String) : String :=
  "[" ++ String.intercalate ", " (xs.map pyReprStr) ++ "]"

/-- Splitting a character list at a separator; the separators are dropped
and empty groups kept, as in Python's `str.split(sep)`. -/
def splitOnChar (sep : Char) : List Char → List (List Char)
  | [] => [[]]
  | c :: cs =>
      let r := splitOnChar sep cs
      if c = sep then [] :: r
      else
        match r with
        | g :: gs => (c :: g) :: gs
        | [] => [[c]]

/-- Modelled from the marshmallow library (an external dependency): its
`fields.Email` validator, abstracted to a non-empty local part and a domain
made of at least two non-empty dot-separated labels. -/
def isValidEmail (s : String) : Bool :=
  match splitOnChar (Char.ofNat 64) s.data with
  | [localPart, domain] =>
      !localPart.isEmpty &&
        (decide (2 ≤ (splitOnChar (Char.ofNat 46) domain).length)) &&
        (splitOnChar (Char.ofNat 46) domain).all (fun d => !d.isEmpty)
  | _ => false

/-- Validation-error keys contributed by the `email` field of `LoginSchema`:
required and a valid email. -/
def emailErrs (kvs : List (String × Json)) : List String :=
  match kvs.lookup "email" with
  | some (Json.str s) => if isValidEmail s then [] else ["email"]
  | some _ => ["email"]
  | none => ["email"]

/-- Validation-error keys contributed by the `password` field of
`LoginSchema`: required and a string. -/
def passwordErrs (kvs : List (String × Json)) : List String :=
  match kvs.lookup "password" with
  | some (Json.str _) => []
  | some _ => ["password"]
  | none => ["password"]

/-- Validation-error keys for fields unknown to `LoginSchema` (marshmallow's
default `unknown = RAISE` behavior). -/
def unknownErrs (kvs : List (String × Json)) : List String :=
  (kvs.map Prod.fst).filter fun k => !(k == "email") && !(k == "password")

/-- Embedding of `LoginSchema().load(body)` from `login_schema.py`, reduced
to the list of error keys of the raised `ValidationError` (the controller
reads only `normalized_messages().keys()`): empty exactly when validation
succeeds. A non-object input is marshmallow's schema-level error `_schema`. -/
def loginValidate : Json → List String
  | Json.obj kvs => emailErrs kvs ++ passwordErrs kvs ++ unknownErrs kvs
  | _ => ["_schema"]

/-- Embedding of `LoginController._authenticate`: dict indexing of the body
(raising `KeyError` on a missing key, `TypeError` on a non-dict), then the
Python condition `email and password == "strongpassword"`. -/
def _authenticate (body : Json) : Except PyErr Bool :=
  match body with
  | Json.obj kvs =>
      match kvs.lookup "email" with
      | none => Except.error (PyErr.keyError "email")
      | some email =>
          match kvs.lookup "password" with
          | none => Except.error (PyErr.keyError "password")
          | some password => Except.ok (truthy email && pyEqStr password "strongpassword")
  | _ => Except.error PyErr.typeError

/-- Embedding of `LoginController.execute` on the already parsed body:
schema validation (422 listing the error keys), then authentication
(200 on success, 403 on failure). -/
def executeBody (body : Json) : Except PyErr Response :=
  let missing := loginValidate body
  if missing = [] then
    match _authenticate body with
    | Except.ok true =>
        Except.ok ⟨200, json_dumps_message "Login successful!"⟩
    | Except.ok false =>
        Except.ok ⟨403, json_dumps_message "Either email or password is incorrect!"⟩
    | Except.error e => Except.error e
  else
    Except.ok ⟨422, json_dumps_message (pyStrList missing ++ " are missing!")⟩

/-- The `LoginController` instance: its constructor stores the parsed body
and the correlation id. -/
structure LoginController where
  body : Json
  pid : String

/-- Embedding of `LoginController.__init__(event, pid)`: parse the event
body (whose errors escape the constructor) and store it with the pid. -/
def LoginController.init (parse : String → Option Json) (event : Event)
    (pid : String) : Except PyErr LoginController :=
  match EventUtils.get_body parse event with
  | Except.ok b => Except.ok ⟨b, pid⟩
  | Except.error e => Except.error e

/-- Embedding of the instance method `LoginController.execute`. -/
def LoginController.execute (c : LoginController) : Except PyErr Response :=
  executeBody c.body

/-- The 404 response of `handle`'s no-controller branch. -/
def notFoundResponse : Response :=
  ⟨404, json_dumps_message "Resource not found!"⟩

/-- Embedding of `handle` in `handler.py`, with `json.loads` (`parse`) and
the route table as explicit parameters standing for the ambient modules.
Dynamic controller loading (`importlib` plus `getattr`) succeeds exactly for
the identifier "Login", giving `LoginController`; the falsy check
`if controller:` sends both `None` and the empty identifier to the 404
branch. -/
def handle (parse : String → Option Json) (routes : List RouteEntry)
    (event : Event) (context : Context) : Except PyErr Response :=
  let resource := EventUtils.get_resource event
  match EventUtils.get_request_type event with
  | Except.error e => Except.error e
  | Except.ok request_type =>
      let pid := context.aws_request_id
      match get_controller routes resource request_type with
      | Except.error e => Except.error e
      | Except.ok controllerOpt =>
          match controllerOpt with
          | some controllerName =>
              if controllerName = "" then Except.ok notFoundResponse
              else if pyLower controllerName = "login" then
                if controllerName = "Login" then
                  match LoginController.init parse event pid with
                  | Except.ok inst => inst.execute
                  | Except.error e => Except.error e
                else Except.error (PyErr.attributeError (controllerName ++ "Controller"))
              else Except.error (PyErr.importError controllerName)
          | none => Except.ok notFoundResponse

/-- Unfolding of `reMatch`: the pattern matches at the start of `s` exactly
when some prefix of `s` lies in the pattern's language (Mathlib's
`matches'`), witnessing the non-anchored match-at-start semantics. -/
theorem reMatch_iff_mem_matches (p : Pattern) (s : String) :
    reMatch p s = true ↔
      ∃ n, n ≤ s.length ∧ s.data.take n ∈ p.matches' := by
  simp only [reMatch, List.any_eq_true, List.mem_range, Nat.lt_succ_iff]
  constructor
  · rintro ⟨n, hn, hm⟩
    exact ⟨n, hn, (RegularExpression.rmatch_iff_matches' p _).mp hm⟩
  · rintro ⟨n, hn, hm⟩
    exact ⟨n, hn, (RegularExpression.rmatch_iff_matches' p _).mpr hm⟩

/-- The dispatcher returns `None` when no pattern in the table matches the
resource path. -/
theorem get_controller_of_no_match (routes : List RouteEntry) (P M : String)
    (h : ∀ e ∈ routes, reMatch e.1 P = false) :
    get_controller routes (Sum.inl P) M = Except.ok none := by
  induction routes with
  | nil => rfl
  | cons head tail ih =>
    obtain ⟨key, value⟩ := head
    have hk : reMatch key P = false := h _ (List.mem_cons_self _ _)
    simp only [get_controller, hk, Bool.false_eq_true, if_false]
    exact ih fun e he => h e (List.mem_cons_of_mem _ he)

/-- The dispatcher raises `KeyError` when the first matching entry's method
dict lacks the request type. -/
theorem get_controller_of_first_miss (pre : List RouteEntry) (entry : RouteEntry)
    (post : List RouteEntry) (P M : String)
    (hpre : ∀ e ∈ pre, reMatch e.1 P = false)
    (hmatch : reMatch entry.1 P = true)
    (hlook : entry.2.lookup M = none) :
    get_controller (pre ++ entry :: post) (Sum.inl P) M =
      Except.error (PyErr.keyError M) := by
  induction pre with
  | nil =>
    obtain ⟨key, value⟩ := entry
    simp only [List.nil_append, get_controller] at *
    simp [hmatch, hlook]
  | cons head tail ih =>
    obtain ⟨key, value⟩ := head
    have hk : reMatch key P = false := hpre _ (List.mem_cons_self _ _)
    simp only [List.cons_append, get_controller, hk, Bool.false_eq_true, if_false]
    exact ih fun e he => hpre e (List.mem_cons_of_mem _ he)

/-- C1: the claim says that when the first pattern-matching entry's method
map lacks the method, `get_controller` returns `NotFound` (`None`) without
raising; on the code the dict indexing `value[request_type]` raises
`KeyError` at that point, refuting the claim. Shown here at the explicit
route table `[("/a", \x7b"GET": "X"\x7d)]`, path "/a" and method POST. -/
theorem get_controller_method_miss_counterexample :
    get_controller [(litPattern "/a".data, [("GET", "X")])] (Sum.inl "/a") "POST" =
      Except.error (PyErr.keyError "POST") := rfl

/-- C1 (amended): `get_controller` returns `NotFound` (`None`), raising
nothing, when no entry's pattern matches the path at the start of the
string; when some entry matches but the first matching entry's method map
lacks the method, it instead raises `KeyError` for that method. -/
theorem get_controller_miss_behavior (routes : List RouteEntry) (P M : String) :
    ((∀ e ∈ routes, reMatch e.1 P = false) →
      get_controller routes (Sum.inl P) M = Except.ok none) ∧
    (∀ pre entry post, routes = pre ++ entry :: post →
      (∀ e ∈ pre, reMatch e.1 P = false) →
      reMatch entry.1 P = true →
      entry.2.lookup M = none →
      get_controller routes (Sum.inl P) M = Except.error (PyErr.keyError M)) := by
  refine ⟨get_controller_of_no_match routes P M, ?_⟩
  intro pre entry post hroutes hpre hmatch hlook
  subst hroutes
  exact get_controller_of_first_miss pre entry post P M hpre hmatch hlook

/-- Witness for C1's amended theorem: both branches at explicit inputs — an
unmatched path gives `None`, a matched entry without the method raises
`KeyError`. -/
theorem get_controller_miss_behavior_witness :
    get_controller [(litPattern "/a".data, [("GET", "X")])] (Sum.inl "/zzz") "GET" =
      Except.ok none ∧
    get_controller [(litPattern "/a".data, [("GET", "X")])] (Sum.inl "/a") "POST" =
      Except.error (PyErr.keyError "POST") :=
  ⟨(get_controller_miss_behavior [(litPattern "/a".data, [("GET", "X")])] "/zzz" "GET").1
      (by decide),
   (get_controller_miss_behavior [(litPattern "/a".data, [("GET", "X")])] "/a" "POST").2
      [] (litPattern "/a".data, [("GET", "X")]) [] rfl (by simp) (by decide) (by decide)⟩

/-- C2: when the table decomposes as earlier non-matching entries, then an
entry whose pattern matches the path at the start of the string whose method
map holds the method, `get_controller` returns that entry's controller
identifier — whatever the later entries are, so the earlier of two
overlapping patterns always wins regardless of specificity. -/
theorem get_controller_first_match (pre : List RouteEntry) (entry : RouteEntry)
    (post : List RouteEntry) (P M c : String)
    (hpre : ∀ e ∈ pre, reMatch e.1 P = false)
    (hmatch : reMatch entry.1 P = true)
    (hlook : entry.2.lookup M = some c) :
    get_controller (pre ++ entry :: post) (Sum.inl P) M = Except.ok (some c) := by
  induction pre with
  | nil =>
    obtain ⟨key, value⟩ := entry
    simp only [List.nil_append, get_controller] at *
    simp [hmatch, hlook]
  | cons head tail ih =>
    obtain ⟨key, value⟩ := head
    have hk : reMatch key P = false := hpre _ (List.mem_cons_self _ _)
    simp only [List.cons_append, get_controller, hk, Bool.false_eq_true, if_false]
    exact ih fun e he => hpre e (List.mem_cons_of_mem _ he)

/-- Witness for C2 at an explicit table whose first pattern "/a" is a strict
prefix of the second "/ab": on path "/ab" both match at the start, and the
earlier, less specific entry wins. -/
theorem get_controller_first_match_witness :
    reMatch (litPattern "/a".data) "/ab" = true ∧
    reMatch (litPattern "/ab".data) "/ab" = true ∧
    get_controller [(litPattern "/a".data, [("GET", "First")]),
        (litPattern "/ab".data, [("GET", "Second")])] (Sum.inl "/ab") "GET" =
      Except.ok (some "First") :=
  ⟨by decide, by decide,
    get_controller_first_match [] (litPattern "/a".data, [("GET", "First")])
      [(litPattern "/ab".data, [("GET", "Second")])] "/ab" "GET" "First"
      (by simp) (by decide) (by decide)⟩

/-- C3: evaluation of `get_resource` at the failing inputs — an event with
no `path` field, and one with an empty `path`, both yield the integer
sentinel `404` as a normal return value (`Sum.inr`), not the
`MissingResourceError` failure the claim requires; a present non-empty path
is returned as the string itself. -/
theorem get_resource_sentinel_on_missing_path :
    EventUtils.get_resource ⟨none, some "POST", none, none, none⟩ = Sum.inr 404 ∧
    EventUtils.get_resource ⟨some "", some "POST", none, none, none⟩ = Sum.inr 404 ∧
    EventUtils.get_resource ⟨some "/user/login/", some "POST", none, none, none⟩ =
      Sum.inl "/user/login/" :=
  ⟨rfl, rfl, rfl⟩

/-- Successful schema validation forces the body to be an object holding a
valid-email string under "email" and a string under "password". -/
theorem loginValidate_eq_nil {body : Json} (h : loginValidate body = []) :
    ∃ kvs es ps, body = Json.obj kvs ∧
      kvs.lookup "email" = some (Json.str es) ∧ isValidEmail es = true ∧
      kvs.lookup "password" = some (Json.str ps) := by
  cases body with
  | obj kvs =>
    simp only [loginValidate, List.append_eq_nil] at h
    obtain ⟨⟨hemail, hpw⟩, _⟩ := h
    refine ⟨kvs, ?_⟩
    cases he : kvs.lookup "email" with
    | none => simp [emailErrs, he] at hemail
    | some v =>
      cases v with
      | str es =>
        by_cases hv : isValidEmail es = true
        · cases hp : kvs.lookup "password" with
          | none => simp [passwordErrs, hp] at hpw
          | some w =>
            cases w with
            | str ps => exact ⟨es, ps, rfl, rfl, hv, rfl⟩
            | null => simp [passwordErrs, hp] at hpw
            | bool b => simp [passwordErrs, hp] at hpw
            | num n => simp [passwordErrs, hp] at hpw
            | arr elems => simp [passwordErrs, hp] at hpw
            | obj kvs2 => simp [passwordErrs, hp] at hpw
        · simp [emailErrs, he, hv] at hemail
      | null => simp [emailErrs, he] at hemail
      | bool b => simp [emailErrs, he] at hemail
      | num n => simp [emailErrs, he] at hemail
      | arr elems => simp [emailErrs, he] at hemail
      | obj kvs2 => simp [emailErrs, he] at hemail
  | null => simp [loginValidate] at h
  | bool b => simp [loginValidate] at h
  | num n => simp [loginValidate] at h
  | str s => simp [loginValidate] at h
  | arr elems => simp [loginValidate] at h

/-- C4: `LoginController.execute` on a parsed request body. When validation
fails it returns 422 with the body listing the error keys as
"[<keys>] are missing!"; when validation succeeds it returns 200 with
"Login successful!" exactly when the body's email is truthy and its password
equals "strongpassword", and 403 with "Either email or password is
incorrect!" otherwise. -/
theorem login_execute_spec (body : Json) :
    (loginValidate body ≠ [] →
      executeBody body = Except.ok ⟨422,
        json_dumps_message (pyStrList (loginValidate body) ++ " are missing!")⟩) ∧
    (loginValidate body = [] →
      executeBody body = Except.ok
        (if truthy ((jlookup body "email").getD Json.null) &&
            pyEqStr ((jlookup body "password").getD Json.null) "strongpassword"
          then ⟨200, json_dumps_message "Login successful!"⟩
          else ⟨403, json_dumps_message "Either email or password is incorrect!"⟩)) := by
  constructor
  · intro h
    unfold executeBody
    rw [if_neg h]
  · intro h
    obtain ⟨kvs, es, ps, hb, he, hev, hp⟩ := loginValidate_eq_nil h
    subst hb
    have hauth : _authenticate (Json.obj kvs) =
        Except.ok (truthy (Json.str es) && pyEqStr (Json.str ps) "strongpassword") := by
      simp [_authenticate, he, hp]
    cases hb2 : truthy (Json.str es) && pyEqStr (Json.str ps) "strongpassword" <;>
      simp [executeBody, h, hauth, hb2, jlookup, he, hp]

/-- Witness for C4: the three documented login scenarios — valid
credentials give 200, a wrong password 403, a missing email 422 whose
message names "email". -/
theorem login_execute_spec_witness :
    executeBody (Json.obj [("email", Json.str "test@gmail.com"),
        ("password", Json.str "strongpassword")]) =
      Except.ok ⟨200, "\x7b\"message\": \"Login successful!\"\x7d"⟩ ∧
    executeBody (Json.obj [("email", Json.str "test@gmail.com"),
        ("password", Json.str "wrong")]) =
      Except.ok ⟨403, "\x7b\"message\": \"Either email or password is incorrect!\"\x7d"⟩ ∧
    executeBody (Json.obj [("password", Json.str "strongpassword")]) =
      Except.ok ⟨422, "\x7b\"message\": \"[\x27email\x27] are missing!\"\x7d"⟩ := by
  refine ⟨?_, ?_, ?_⟩
  · rw [(login_execute_spec (Json.obj [("email", Json.str "test@gmail.com"),
      ("password", Json.str "strongpassword")])).2 rfl]
    rfl
  · rw [(login_execute_spec (Json.obj [("email", Json.str "test@gmail.com"),
      ("password", Json.str "wrong")])).2 rfl]
    rfl
  · rw [(login_execute_spec (Json.obj [("password", Json.str "strongpassword")])).1
      (by decide)]
    rfl

/-- C5: an event with present non-empty path and method whose path matches
no pattern of the route table is answered by `handle` with status 404 and
the serialized body confirming the resource was not found. -/
theorem handle_unmatched_404 (parse : String → Option Json)
    (routes : List RouteEntry) (event : Event) (context : Context)
    (p m : String) (hp : event.path = some p) (hpne : p ≠ "")
    (hm : event.httpMethod = some m) (hmne : m ≠ "")
    (hnomatch : ∀ e ∈ routes, reMatch e.1 p = false) :
    handle parse routes event context =
      Except.ok ⟨404, "\x7b\"message\": \"Resource not found!\"\x7d"⟩ := by
  have hres : EventUtils.get_resource event = Sum.inl p := by
    simp [EventUtils.get_resource, hp, hpne]
  have hrt : EventUtils.get_request_type event = Except.ok m := by
    simp [EventUtils.get_request_type, hm, hmne]
  have hctrl : get_controller routes (Sum.inl p) m = Except.ok none :=
    get_controller_of_no_match routes p m hnomatch
  simp only [handle, hres, hrt, hctrl]
  rfl

/-- Witness for C5 at the documented unmatched path "/nonexistent/" against
the route table. -/
theorem handle_unmatched_404_witness :
    handle (fun _ => none) ROUTES
        ⟨some "/nonexistent/", some "GET", none, none, none⟩ ⟨"c1"⟩ =
      Except.ok ⟨404, "\x7b\"message\": \"Resource not found!\"\x7d"⟩ :=
  handle_unmatched_404 (fun _ => none) ROUTES
    ⟨some "/nonexistent/", some "GET", none, none, none⟩ ⟨"c1"⟩
    "/nonexistent/" "GET" rfl (by decide) rfl (by decide) (by decide)

/-- C6: the correlation id read from the context influences nothing in the
returned value of `handle` — two invocations on one event with different
`aws_request_id`s agree on the whole outcome, status code, body and raised
error alike. -/
theorem handle_correlation_id_irrelevant (parse : String → Option Json)
    (routes : List RouteEntry) (event : Event) (c1 c2 : String) :
    handle parse routes event ⟨c1⟩ = handle parse routes event ⟨c2⟩ := by
  simp only [handle]
  cases hrt : EventUtils.get_request_type event with
  | error e => rfl
  | ok request_type =>
    dsimp only
    cases hgc : get_controller routes (EventUtils.get_resource event) request_type with
    | error e => rfl
    | ok controllerOpt =>
      dsimp only
      cases controllerOpt with
      | none => rfl
      | some c =>
        dsimp only
        by_cases h1 : c = ""
        · simp [h1]
        · by_cases h2 : pyLower c = "login"
          · by_cases h3 : c = "Login"
            · simp only [h1, h2, h3, if_true, if_false, LoginController.init]
              cases EventUtils.get_body parse event <;>
                simp [h1, h2, h3, LoginController.execute]
            · simp [h1, h2, h3]
          · simp [h1, h2]

/-- C7: `get_body` behaves as the three-way contract demands — it returns
the parsed structured body exactly for a present, non-empty, parseable
`body` string; raises the empty-body `ValueError` exactly when the field is
absent or empty; and raises `JSONDecodeError` exactly when the field is
present and non-empty but unparseable. -/
theorem get_body_spec (parse : String → Option Json) (e : Event) :
    (∀ j, EventUtils.get_body parse e = Except.ok j ↔
      ∃ s, e.body = some s ∧ s ≠ "" ∧ parse s = some j) ∧
    (EventUtils.get_body parse e = Except.error (PyErr.valueError "Body was empty") ↔
      e.body = none ∨ e.body = some "") ∧
    (EventUtils.get_body parse e = Except.error PyErr.jsonDecodeError ↔
      ∃ s, e.body = some s ∧ s ≠ "" ∧ parse s = none) := by
  obtain ⟨p, m, h, b, q⟩ := e
  cases b with
  | none => simp [EventUtils.get_body]
  | some s =>
    by_cases hs : s = ""
    · subst hs
      simp [EventUtils.get_body]
    · cases hp : parse s <;> simp [EventUtils.get_body, hs, hp]

/-- Splitting `find?` over an append: the left part wins when it finds a
witness. -/
theorem find?_append_eq {α : Type} (p : α → Bool) (l1 l2 : List α) :
    (l1 ++ l2).find? p =
      match l1.find? p with
      | some a => some a
      | none => l2.find? p := by
  induction l1 with
  | nil => rfl
  | cons a t ih =>
    by_cases h : p a = true
    · simp [List.find?, h]
    · simp [List.find?, h, ih]

/-- Lookup after a Python-style dict insertion: the inserted key now maps to
the new value, all other keys are untouched. -/
theorem lookup_dinsert (d : List (String × String)) (k k2 v : String) :
    List.lookup k2 (EventUtils.dinsert d k v) =
      if k2 = k then some v else List.lookup k2 d := by
  induction d with
  | nil =>
    by_cases h : k2 = k
    · simp [EventUtils.dinsert, List.lookup, h]
    · have hb : (k2 == k) = false := beq_eq_false_iff_ne.mpr h
      simp [EventUtils.dinsert, List.lookup, h, hb]
  | cons hd t ih =>
    obtain ⟨k1, v1⟩ := hd
    by_cases h1 : k1 = k
    · subst h1
      by_cases h2 : k2 = k1
      · have hb : (k2 == k1) = true := beq_iff_eq.mpr h2
        simp [EventUtils.dinsert, List.lookup, h2, hb]
      · have hb : (k2 == k1) = false := beq_eq_false_iff_ne.mpr h2
        simp [EventUtils.dinsert, List.lookup, h2, hb]
    · by_cases h2 : k2 = k1
      · subst h2
        have hb : (k2 == k2) = true := beq_iff_eq.mpr rfl
        simp [EventUtils.dinsert, h1, List.lookup, Ne.symm h1, hb]
      · have hb : (k2 == k1) = false := beq_eq_false_iff_ne.mpr h2
        simp [EventUtils.dinsert, h1, List.lookup, h2, hb, ih]

/-- Lookup in the lowered-headers dict built by folding `dinsert`: the last
binding whose lowered key equals `k` wins, else the accumulator decides. -/
theorem lookup_foldl_dinsert (hs : List (String × String))
    (acc : List (String × String)) (k : String) :
    List.lookup k (hs.foldl (fun d kv => EventUtils.dinsert d (pyLower kv.1) kv.2) acc) =
      match hs.reverse.find? (fun kv => pyLower kv.1 == k) with
      | some kv => some kv.2
      | none => List.lookup k acc := by
  induction hs generalizing acc with
  | nil => rfl
  | cons hd t ih =>
    simp only [List.foldl_cons, List.reverse_cons]
    rw [ih, find?_append_eq]
    cases ht : t.reverse.find? (fun kv => pyLower kv.1 == k) with
    | some kv => rfl
    | none =>
      by_cases h : (pyLower hd.1 == k) = true
      · have hk : pyLower hd.1 = k := beq_iff_eq.mp h
        simp [List.find?, h, lookup_dinsert, hk]
      · have hk : ¬(k = pyLower hd.1) := fun hh => h (beq_iff_eq.mpr hh.symm)
        simp [List.find?, h, lookup_dinsert, hk]

/-- Inserting into a dict never empties it. -/
theorem dinsert_ne_nil (d : List (String × String)) (k v : String) :
    EventUtils.dinsert d k v ≠ [] := by
  cases d with
  | nil => simp [EventUtils.dinsert]
  | cons hd t =>
    obtain ⟨k1, v1⟩ := hd
    by_cases h : k1 = k <;> simp [EventUtils.dinsert, h]

/-- Folding dict insertions over a non-empty accumulator stays non-empty. -/
theorem foldl_dinsert_ne_nil (hs : List (String × String))
    (acc : List (String × String)) (h : acc ≠ []) :
    hs.foldl (fun d kv => EventUtils.dinsert d (pyLower kv.1) kv.2) acc ≠ [] := by
  induction hs generalizing acc with
  | nil => simpa using h
  | cons hd t ih => exact ih _ (dinsert_ne_nil _ _ _)

/-- The lowered-headers dict of a non-empty headers mapping is non-empty. -/
theorem lowerHeaders_ne_nil (hd : String × String) (t : List (String × String)) :
    EventUtils.lowerHeaders (hd :: t) ≠ [] := by
  have : EventUtils.lowerHeaders (hd :: t) =
      t.foldl (fun d kv => EventUtils.dinsert d (pyLower kv.1) kv.2)
        (EventUtils.dinsert [] (pyLower hd.1) hd.2) := rfl
  rw [this]
  exact foldl_dinsert_ne_nil t _ (dinsert_ne_nil _ _ _)

/-- C8: `get_request_origin` raises nothing (it is a total function into
`Option String`), returns `none` when the headers field is absent, and on a
headers mapping returns exactly the value of the last header whose key
lowercases to "origin" — the case-insensitive origin lookup, `none` when no
key matches. -/
theorem get_request_origin_spec (e : Event) :
    (e.headers = none → EventUtils.get_request_origin e = none) ∧
    (∀ hs, e.headers = some hs →
      EventUtils.get_request_origin e =
        (hs.reverse.find? fun kv => pyLower kv.1 == "origin").map Prod.snd) := by
  constructor
  · intro h
    simp [EventUtils.get_request_origin, h, EventUtils.lowerHeaders]
  · intro hs hh
    cases hs with
    | nil => simp [EventUtils.get_request_origin, hh, EventUtils.lowerHeaders]
    | cons hd t =>
      have hne := lowerHeaders_ne_nil hd t
      have hlk := lookup_foldl_dinsert (hd :: t) [] "origin"
      simp only [EventUtils.get_request_origin, hh, Option.getD_some]
      rw [if_neg (by simpa [List.isEmpty_iff] using hne)]
      rw [EventUtils.lowerHeaders] at *
      rw [hlk]
      cases hf : (hd :: t).reverse.find? (fun kv => pyLower kv.1 == "origin") <;>
        simp [hf]

/-- Witness for C8 at the test event's headers: an uppercase "Origin" key is
found by the case-insensitive lookup. -/
theorem get_request_origin_spec_witness :
    EventUtils.get_request_origin
        ⟨none, none, some [("Origin", "https://google.com/")], none, none⟩ =
      (([("Origin", "https://google.com/")].reverse.find?
          fun kv => pyLower kv.1 == "origin").map Prod.snd) :=
  (get_request_origin_spec
      ⟨none, none, some [("Origin", "https://google.com/")], none, none⟩).2
    [("Origin", "https://google.com/")] rfl

/-- C9: on an event whose path is absent or empty but whose method is
present, `get_resource` returns the integer `404`, that integer flows into
`re.match` inside `get_controller`, and `handle` therefore raises
`TypeError` instead of returning any response. -/
theorem handle_missing_path_type_error (parse : String → Option Json)
    (event : Event) (context : Context) (m : String)
    (hp : event.path = none ∨ event.path = some "")
    (hm : event.httpMethod = some m) (hmne : m ≠ "") :
    EventUtils.get_resource event = Sum.inr 404 ∧
    handle parse ROUTES event context = Except.error PyErr.typeError := by
  have hres : EventUtils.get_resource event = Sum.inr 404 := by
    rcases hp with h | h <;> simp [EventUtils.get_resource, h]
  have hrt : EventUtils.get_request_type event = Except.ok m := by
    simp [EventUtils.get_request_type, hm, hmne]
  refine ⟨hres, ?_⟩
  simp only [handle, hres, hrt]
  rfl

/-- Witness for C9: the concrete event with no path and method POST. -/
theorem handle_missing_path_type_error_witness :
    EventUtils.get_resource ⟨none, some "POST", none, none, none⟩ = Sum.inr 404 ∧
    handle (fun _ => none) ROUTES ⟨none, some "POST", none, none, none⟩ ⟨"c1"⟩ =
      Except.error PyErr.typeError :=
  handle_missing_path_type_error (fun _ => none)
    ⟨none, some "POST", none, none, none⟩ ⟨"c1"⟩ "POST" (Or.inl rfl) rfl (by decide)

/-- C10: when `LoginSchema` validation succeeds on a body, the dict
indexings `body["email"]` and `body["password"]` inside `_authenticate`
cannot fail: authentication returns a boolean, the `KeyError` branches are
unreachable. -/
theorem authenticate_total_after_validation (body : Json)
    (h : loginValidate body = []) :
    ∃ b, _authenticate body = Except.ok b := by
  obtain ⟨kvs, es, ps, hb, he, hev, hp⟩ := loginValidate_eq_nil h
  subst hb
  exact ⟨truthy (Json.str es) && pyEqStr (Json.str ps) "strongpassword",
    by simp [_authenticate, he, hp]⟩

/-- Witness for C10 at a concrete validated body. -/
theorem authenticate_total_after_validation_witness :
    loginValidate (Json.obj [("email", Json.str "a@b.com"),
        ("password", Json.str "pw")]) = [] ∧
    ∃ b, _authenticate (Json.obj [("email", Json.str "a@b.com"),
        ("password", Json.str "pw")]) = Except.ok b :=
  ⟨rfl, authenticate_total_after_validation
    (Json.obj [("email", Json.str "a@b.com"), ("password", Json.str "pw")]) rfl⟩
